import Mathlib

/-!
Shallow embedding of the Mini-Gods-Eye backend (src/Backend/vision_engine.py and
src/Backend/main.py).

External capabilities are passed in as explicit data or oracles:
the YOLO detector result for a frame is an `Except Unit (List RawBox)`
(`Except.error` models the model call raising, or returning malformed output that
makes the loop raise), a `DeepFace.verify` call on the fixed probe against a
reference path is a `VerifyOutcome`, the result of `_identify_person` on a box is
given by an oracle `RawBox → IdRes`, the success of the CSV append is a `Bool`,
and timestamps are abstract naturals.  Python exceptions are modelled by an
explicit `raised`/failure flag next to the (partially mutated) state, matching
the mutation order of the source.
-/

namespace GodsEye

/-- Outcome of one `DeepFace.verify(probe, reference)` call: the call raised
(`err`) or returned a record with fields `verified` and `distance`. -/
inductive VerifyOutcome where
  | err : VerifyOutcome
  | result : Bool → ℚ → VerifyOutcome
deriving DecidableEq

/-- An identification result `(name, confidence, is_known)` as returned by
`FaceDatabase.identify_face` / `VisionEngine._identify_person`. -/
abbrev IdRes := String × ℚ × Bool

/-- The `for name, known_path in self.known_faces.items()` loop of
`FaceDatabase.identify_face` (vision_engine.py lines 87-104): each entry is tried
in order; a raising `DeepFace.verify` call is swallowed by the inner
`except Exception: continue`; the first entry with `verified` true returns
`(name, 1 - distance, True)`; a exhausted gallery returns
`("UNKNOWN", 0.0, False)`. -/
def identifyLoop (verify : String → VerifyOutcome) :
    List (String × String) → IdRes
  | [] => ("UNKNOWN", 0, false)
  | (name, path) :: rest =>
    match verify path with
    | .err => identifyLoop verify rest
    | .result v dist => if v then (name, 1 - dist, true) else identifyLoop verify rest

/-- `FaceDatabase.identify_face` (vision_engine.py lines 75-108).  The gallery is
the `known_faces` dict as an insertion-ordered list of `(name, path)`; `verify`
gives the outcome of `DeepFace.verify` for the fixed probe against each path.
The outer `except` returning `("ERROR", 0.0, False)` is unreachable here: the
only raising statement in the outer `try` is the verify call, which is already
wrapped by the inner `try`. -/
def identify_face (deepfaceAvailable : Bool) (verify : String → VerifyOutcome)
    (gallery : List (String × String)) : IdRes :=
  if gallery.isEmpty || !deepfaceAvailable then ("UNKNOWN", 0, false)
  else identifyLoop verify gallery

/-- One box returned by the detector: class id, `xyxy` corners (as `int(...)` in
the source), and confidence. -/
structure RawBox where
  cls : Int
  x1 : Int
  y1 : Int
  x2 : Int
  y2 : Int
  conf : ℚ
deriving DecidableEq

/-- One entry of `self.last_detections` as built in `_run_detection`
(vision_engine.py lines 309-315). -/
structure Detection where
  x1 : Int
  y1 : Int
  x2 : Int
  y2 : Int
  yolo_conf : ℚ
  identity : String
  face_conf : ℚ
  is_known : Bool
deriving DecidableEq

/-- One entry of `self.detection_logs` as appended in `_log_detection`
(vision_engine.py lines 188-193); the timestamp is abstract. -/
structure LogEvent where
  timestamp : Nat
  num_persons : Nat
  identified : Nat
  names : List String
deriving DecidableEq

/-- The `identity_cache` dict.  The source keys it by the string
`f"{(x1+x2)//50}_{(y1+y2)//50}"`; decimal rendering of the two integers around
an underscore is an injective encoding of the pair, and the dict uses only key
equality, so the cache is modelled as an association list keyed by the pair. -/
abbrev Cache := List ((Int × Int) × IdRes)

/-- Dict membership/read: first entry with the given key. -/
def cacheLookup (c : Cache) (k : Int × Int) : Option IdRes :=
  (c.find? (fun p => p.1 == k)).map (fun p => p.2)

/-- Dict assignment: unconditional overwrite of the key. -/
def cacheStore (c : Cache) (k : Int × Int) (v : IdRes) : Cache :=
  (k, v) :: c.filter (fun p => p.1 != k)

/-- The cache key computed at vision_engine.py line 299:
`f"{(x1+x2)//50}_{(y1+y2)//50}"`, Python `//` being floor division. -/
def cache_key (x1 y1 x2 y2 : Int) : Int × Int :=
  ((x1 + x2).fdiv 50, (y1 + y2).fdiv 50)

/-- Modelled from the spec: the Identity Cache key the spec describes,
`(floor(cx/Q), floor(cy/Q))` with `Q = 50` and `(cx, cy)` the box center
`((x1+x2)/2, (y1+y2)/2)`.  Stated over ℚ so the halving is exact; compared
against `cache_key`, the key the source computes. -/
def spec_cache_key (x1 y1 x2 y2 : Int) : Int × Int :=
  (⌊((x1 + x2 : ℤ) : ℚ) / 2 / 50⌋, ⌊((y1 + y2 : ℤ) : ℚ) / 2 / 50⌋)

/-- `VisionEngine.SKIP_FRAMES` (vision_engine.py line 128). -/
def SKIP_FRAMES : Nat := 5

/-- `VisionEngine.FACE_SKIP_FRAMES` (vision_engine.py line 129). -/
def FACE_SKIP_FRAMES : Nat := 10

/-- `VisionEngine.PERSON_CLASS_ID` (vision_engine.py line 130). -/
def PERSON_CLASS_ID : Int := 0

/-- The mutable state of a `VisionEngine` instance relevant to the pipeline:
the face gallery (`face_db.known_faces`, as an ordered `(name, path)` list) and
the fields set in `__init__` (vision_engine.py lines 153-162). -/
structure EngineState where
  known_faces : List (String × String)
  last_detections : List Detection
  frame_count : Nat
  face_frame_count : Nat
  person_detected : Bool
  identified_count : Nat
  detection_logs : List LogEvent
  identity_cache : Cache
deriving DecidableEq

/-- State right after `VisionEngine.__init__` with a given loaded gallery. -/
def initState (knownFaces : List (String × String)) : EngineState :=
  { known_faces := knownFaces
    last_detections := []
    frame_count := 0
    face_frame_count := 0
    person_detected := false
    identified_count := 0
    detection_logs := []
    identity_cache := [] }

/-- The in-memory truncation in `_log_detection` (vision_engine.py lines
194-195): `if len(logs) > 1000: logs = logs[-1000:]`. -/
def truncateLog (logs : List LogEvent) : List LogEvent :=
  if logs.length > 1000 then logs.drop (logs.length - 1000) else logs

/-- `VisionEngine._log_detection` (vision_engine.py lines 178-195).
`csvWriteOk` is whether the `open`/`writerow` of the CSV append succeeds; the
CSV block precedes the in-memory append and is not wrapped in any `try`, so on
failure the exception propagates (second component `false`) and the in-memory
append never runs. -/
def log_detection (csvWriteOk : Bool) (ts : Nat) (num_persons identified : Nat)
    (names : List String) (s : EngineState) : EngineState × Bool :=
  if csvWriteOk then
    ({ s with detection_logs :=
        truncateLog (s.detection_logs ++ [⟨ts, num_persons, identified, names⟩]) }, true)
  else (s, false)

/-- The box loop of `_run_detection` (vision_engine.py lines 287-315): keep only
person-class boxes; on a face-recognition cycle with DeepFace available and a
non-empty gallery, identify and overwrite the cache bucket; otherwise read the
cache, falling back to the `("SCANNING...", 0.0, False)` sentinel.  The cache is
threaded so writes for earlier boxes are visible to later boxes of the same
cycle, as with the Python dict. -/
def detectBoxes (run_face deepfaceAvailable galleryNonempty : Bool)
    (idOracle : RawBox → IdRes) : List RawBox → Cache → List Detection × Cache
  | [], c => ([], c)
  | b :: rest, c =>
    if b.cls = PERSON_CLASS_ID then
      let key := cache_key b.x1 b.y1 b.x2 b.y2
      let rc :=
        if run_face && deepfaceAvailable && galleryNonempty then
          (idOracle b, cacheStore c key (idOracle b))
        else
          match cacheLookup c key with
          | some v => (v, c)
          | none => ((("SCANNING...", 0, false) : IdRes), c)
      let rest2 := detectBoxes run_face deepfaceAvailable galleryNonempty idOracle rest rc.2
      (⟨b.x1, b.y1, b.x2, b.y2, b.conf, rc.1.1, rc.1.2.1, rc.1.2.2⟩ :: rest2.1, rest2.2)
    else
      detectBoxes run_face deepfaceAvailable galleryNonempty idOracle rest c

/-- Result of `_run_detection`: `out = none` means the `self.model(frame)` call
raised (or returned malformed output), so the exception propagates before
`face_frame_count` is touched; otherwise the produced detection list. -/
structure RunDetResult where
  out : Option (List Detection)
  s : EngineState
deriving DecidableEq

/-- `VisionEngine._run_detection` (vision_engine.py lines 279-317).  The model
call (line 281) happens before the `face_frame_count` increment (line 284), so a
raising detector leaves the state untouched. -/
def run_detection (deepfaceAvailable : Bool) (idOracle : RawBox → IdRes)
    (detOut : Except Unit (List RawBox)) (s : EngineState) : RunDetResult :=
  match detOut with
  | .error _ => ⟨none, s⟩
  | .ok boxes =>
    let s1 := { s with face_frame_count := s.face_frame_count + 1 }
    let run_face := s1.face_frame_count % FACE_SKIP_FRAMES == 0
    let dc := detectBoxes run_face deepfaceAvailable (!s1.known_faces.isEmpty)
        idOracle boxes s1.identity_cache
    ⟨some dc.1, { s1 with identity_cache := dc.2 }⟩

/-- Result of one `process_frame` call: the (possibly partially mutated) state,
whether the call raised, and whether the detector was invoked this frame. -/
structure StepResult where
  s : EngineState
  raised : Bool
  ranDetector : Bool
deriving DecidableEq

/-- `VisionEngine.process_frame` (vision_engine.py lines 319-340).  `frame_count`
is incremented first; full inference runs only when it is divisible by
`SKIP_FRAMES`; on an inference cycle with a non-empty detection list an event is
logged.  The drawing calls mutate only the frame buffer, not this state. -/
def process_frame (deepfaceAvailable : Bool) (idOracle : RawBox → IdRes)
    (detOut : Except Unit (List RawBox)) (csvWriteOk : Bool) (ts : Nat)
    (s : EngineState) : StepResult :=
  let s0 := { s with frame_count := s.frame_count + 1 }
  if s0.frame_count % SKIP_FRAMES == 0 then
    match run_detection deepfaceAvailable idOracle detOut s0 with
    | ⟨none, s1⟩ => ⟨s1, true, true⟩
    | ⟨some dets, s1⟩ =>
      let s2 := { s1 with last_detections := dets }
      if dets.isEmpty then
        ⟨{ s2 with person_detected := false, identified_count := 0 }, false, true⟩
      else
        let known_names := (dets.filter (fun d => d.is_known)).map (fun d => d.identity)
        let s3 := { s2 with person_detected := true, identified_count := known_names.length }
        let lr := log_detection csvWriteOk ts dets.length known_names.length known_names s3
        ⟨lr.1, !lr.2, true⟩
  else ⟨s0, false, false⟩

/-- Per-iteration external input for the `generate_frames` loop: whether
`self.cap.read()` succeeded, the detector outcome, the CSV append outcome, and
the timestamp for any event. -/
structure GenInput where
  readSuccess : Bool
  detOut : Except Unit (List RawBox)
  csvWriteOk : Bool
  ts : Nat

/-- Observed outcome of running the `generate_frames` loop over a finite window
of inputs: frames yielded so far, final state, whether an exception escaped the
loop, and whether the `finally` released the camera within the window. -/
structure GenResult where
  framesYielded : Nat
  s : EngineState
  raised : Bool
  cameraReleased : Bool
deriving DecidableEq

/-- The `while True` loop of `VisionEngine.generate_frames` (vision_engine.py
lines 356-375), run over a finite window of per-iteration inputs.  A failed read
hits `continue`; a successful read processes the frame and yields one JPEG part;
an exception from `process_frame` escapes the loop (the `except` at line 369
re-raises) and the `finally` releases the camera.  If the window is exhausted
the loop is still running (nothing raised, camera still held). -/
def generateLoop (deepfaceAvailable : Bool) (idOracle : RawBox → IdRes) :
    List GenInput → EngineState → Nat → GenResult
  | [], s, n => ⟨n, s, false, false⟩
  | inp :: rest, s, n =>
    if inp.readSuccess then
      let r := process_frame deepfaceAvailable idOracle inp.detOut inp.csvWriteOk inp.ts s
      if r.raised then ⟨n, r.s, true, true⟩
      else generateLoop deepfaceAvailable idOracle rest r.s (n + 1)
    else
      generateLoop deepfaceAvailable idOracle rest s n

/-- Python list slicing `xs[start:]` for an arbitrary (possibly negative)
integer start. -/
def pySliceFrom (xs : List LogEvent) (start : Int) : List LogEvent :=
  let n : Int := xs.length
  let i : Int := if start < 0 then max (n + start) 0 else min start n
  xs.drop i.toNat

/-- `VisionEngine.get_logs` (vision_engine.py lines 377-379):
`return self.detection_logs[-limit:]`. -/
def get_logs (s : EngineState) (limit : Int) : List LogEvent :=
  pySliceFrom s.detection_logs (-limit)

/-- The dict returned by `VisionEngine.get_status` (vision_engine.py lines
381-389). -/
structure Status where
  person_detected : Bool
  identified_count : Nat
  frame_count : Nat
  detections_count : Nat
  known_faces_loaded : Nat
  deepface_available : Bool
deriving DecidableEq

/-- `VisionEngine.get_status`. -/
def get_status (deepfaceAvailable : Bool) (s : EngineState) : Status :=
  ⟨s.person_detected, s.identified_count, s.frame_count, s.last_detections.length,
   s.known_faces.length, deepfaceAvailable⟩

/-- Driver used to state trace properties: process a list of frames whose
detector calls all succeed (each element is that frame's detector output), with
successful CSV writes and timestamp 0. -/
def runOk (deepfaceAvailable : Bool) (idOracle : RawBox → IdRes)
    (frames : List (List RawBox)) (s : EngineState) : EngineState :=
  frames.foldl (fun t bs => (process_frame deepfaceAvailable idOracle (.ok bs) true 0 t).s) s

/-- The methods defined by `class VisionEngine` (vision_engine.py lines
111-394), transcribed in source order. -/
def visionEngineMethods : List String :=
  ["__init__", "_init_csv_log", "_log_detection", "_draw_hud_box",
   "_draw_hud_overlay", "_identify_person", "_run_detection", "process_frame",
   "generate_frames", "get_logs", "get_status", "cleanup"]

/-- HTTP outcome of a FastAPI handler: a success response or an
`HTTPException` with a status code. -/
inductive ApiResult where
  | ok : ApiResult
  | httpError : Nat → ApiResult
deriving DecidableEq

/-- Outcome of the `POST /faces` handler: response, the engine's in-memory
gallery afterwards, and whether the uploaded file was written to disk. -/
structure UploadOutcome where
  resp : ApiResult
  gallery : List (String × String)
  fileSaved : Bool
deriving DecidableEq

/-- `upload_face` (main.py lines 143-173).  After validating the content type
and saving the file it calls `vision_engine.reload_faces()`.  `VisionEngine`
defines only the methods in `visionEngineMethods`; calling an absent attribute
raises `AttributeError`, which the handler's `except Exception` turns into an
HTTP 500, leaving the in-memory gallery unchanged.  (The `HTTPException(400)`
for a non-image is itself caught by that same `except` and re-raised as 500.)
`reloaded` is the gallery a reload would produce from the updated directory. -/
def upload_face (isImage : Bool) (gallery reloaded : List (String × String)) :
    UploadOutcome :=
  if !isImage then ⟨.httpError 500, gallery, false⟩
  else if visionEngineMethods.contains "reload_faces" then ⟨.ok, reloaded, true⟩
  else ⟨.httpError 500, gallery, true⟩

/-- Outcome of the `DELETE /faces/{name}` handler: response, the engine's
in-memory gallery afterwards, and whether the reference file was removed from
disk. -/
structure DeleteOutcome where
  resp : ApiResult
  gallery : List (String × String)
  fileDeleted : Bool
deriving DecidableEq

/-- `delete_face` (main.py lines 176-202).  If the name is registered and its
file exists, the file is removed and then `vision_engine.reload_faces()` is
called — which raises `AttributeError` (method absent) and becomes an HTTP 500
with the in-memory gallery unchanged.  A missing name/file raises
`HTTPException(404)` inside the `try`, which the `except Exception` also
re-raises as 500. -/
def delete_face (name : String) (fileExists : Bool)
    (gallery reloaded : List (String × String)) : DeleteOutcome :=
  if gallery.any (fun p => p.1 == name) && fileExists then
    if visionEngineMethods.contains "reload_faces" then ⟨.ok, reloaded, true⟩
    else ⟨.httpError 500, gallery, true⟩
  else ⟨.httpError 500, gallery, false⟩

/-- Consistency invariant tying the status flags to the current detection set
(claim C10): `person_detected` holds exactly when `last_detections` is
non-empty, and `identified_count` counts its `is_known` members. -/
def EngineInv (s : EngineState) : Prop :=
  (s.person_detected = true ↔ s.last_detections ≠ [])
  ∧ s.identified_count = (s.last_detections.filter (fun d => d.is_known)).length

instance (s : EngineState) : Decidable (EngineInv s) := by
  unfold EngineInv; infer_instance

/-- Identification oracle used in concrete runs: every box resolves to an
unknown subject. -/
def oracle0 : RawBox → IdRes := fun _ => ("X", 0, false)

/-- A concrete person-class detector box.  (The confidence is an integer-valued
rational so that kernel evaluation of equalities over it stays cheap.) -/
def personBox : RawBox := ⟨0, 10, 10, 60, 60, 1⟩

end GodsEye

namespace GodsEye

/-! ### Helper lemmas -/

/-- `_run_detection` never touches the detection set, the logs, the status
flags or the frame counter: on failure it mutates nothing, on success it only
bumps `face_frame_count` and rewrites the identity cache. -/
theorem run_detection_preserves (d : Bool) (o : RawBox → IdRes)
    (x : Except Unit (List RawBox)) (s : EngineState) :
    (run_detection d o x s).s.last_detections = s.last_detections
    ∧ (run_detection d o x s).s.detection_logs = s.detection_logs
    ∧ (run_detection d o x s).s.person_detected = s.person_detected
    ∧ (run_detection d o x s).s.identified_count = s.identified_count
    ∧ (run_detection d o x s).s.frame_count = s.frame_count
    ∧ (run_detection d o x s).s.known_faces = s.known_faces := by
  cases x <;> exact ⟨rfl, rfl, rfl, rfl, rfl, rfl⟩

/-- Every `process_frame` call increments `frame_count` by exactly one. -/
theorem process_frame_frame_count (d : Bool) (o : RawBox → IdRes)
    (x : Except Unit (List RawBox)) (csv : Bool) (ts : Nat) (s : EngineState) :
    (process_frame d o x csv ts s).s.frame_count = s.frame_count + 1 := by
  simp only [process_frame]
  split
  · split
    case _ s1 heq =>
      have h := congrArg (fun r => r.s.frame_count) heq
      simpa [(run_detection_preserves d o x _).2.2.2.2.1] using h.symm
    case _ dets s1 heq =>
      have h := congrArg (fun r => r.s.frame_count) heq
      have h1 : s1.frame_count = s.frame_count + 1 := by
        simpa [(run_detection_preserves d o x _).2.2.2.2.1] using h.symm
      split
      · simp [h1]
      · simp only [log_detection]
        split <;> simp [h1]
  · rfl

/-- `process_frame` invokes the detector exactly when the incremented frame
counter is divisible by `SKIP_FRAMES`. -/
theorem process_frame_ranDetector (d : Bool) (o : RawBox → IdRes)
    (x : Except Unit (List RawBox)) (csv : Bool) (ts : Nat) (s : EngineState) :
    (process_frame d o x csv ts s).ranDetector
      = ((s.frame_count + 1) % SKIP_FRAMES == 0) := by
  simp only [process_frame]
  split
  case _ hc =>
    rw [hc]
    split
    · rfl
    · split <;> rfl
  case _ hc =>
    simp only [Bool.not_eq_true] at hc
    simp [hc]

/-- On a frame whose index is not divisible by `SKIP_FRAMES`, `process_frame`
only increments the frame counter. -/
theorem process_frame_skip (d : Bool) (o : RawBox → IdRes)
    (x : Except Unit (List RawBox)) (csv : Bool) (ts : Nat) (s : EngineState)
    (h : ¬ (s.frame_count + 1) % SKIP_FRAMES = 0) :
    process_frame d o x csv ts s
      = ⟨{ s with frame_count := s.frame_count + 1 }, false, false⟩ := by
  have hb : ((s.frame_count + 1) % SKIP_FRAMES == 0) = false := by simpa using h
  simp [process_frame, hb]

/-- On a frame whose index is divisible by `SKIP_FRAMES`, a raising detector
call propagates out of `process_frame` with only the frame counter mutated. -/
theorem process_frame_detector_raises (d : Bool) (o : RawBox → IdRes)
    (csv : Bool) (ts : Nat) (s : EngineState)
    (h : (s.frame_count + 1) % SKIP_FRAMES = 0) :
    process_frame d o (.error ()) csv ts s
      = ⟨{ s with frame_count := s.frame_count + 1 }, true, true⟩ := by
  have hb : ((s.frame_count + 1) % SKIP_FRAMES == 0) = true := by simpa using h
  simp [process_frame, run_detection, hb]

/-- `find?` for a key distinct from `k0` is unaffected by filtering out the
`k0` entries. -/
theorem find_filter_ne (c : Cache) (k0 k : Int × Int) (hk : k ≠ k0) :
    (c.filter (fun p => p.1 != k0)).find? (fun p => p.1 == k)
      = c.find? (fun p => p.1 == k) := by
  induction c with
  | nil => rfl
  | cons hd tl ih =>
    rw [List.filter_cons]
    by_cases h0 : hd.1 = k0
    · have hkeep : (hd.1 != k0) = false := by simp [h0]
      have hpred : (hd.1 == k) = false := by
        simp only [beq_eq_false_iff_ne, ne_eq, h0]
        exact fun hh => hk hh.symm
      rw [hkeep]
      simp only [Bool.false_eq_true, if_false, List.find?_cons, hpred]
      exact ih
    · have hkeep : (hd.1 != k0) = true := by simp [h0]
      rw [hkeep, if_pos rfl]
      simp only [List.find?_cons]
      cases h1 : (hd.1 == k) with
      | true => rfl
      | false => exact ih

/-- Dict semantics of the identity cache: after storing under `k0`, looking up
`k0` yields the stored value and every other key is unaffected. -/
theorem cacheLookup_store (c : Cache) (k0 k : Int × Int) (v : IdRes) :
    cacheLookup (cacheStore c k0 v) k
      = if k = k0 then some v else cacheLookup c k := by
  unfold cacheLookup cacheStore
  by_cases hk : k = k0
  · subst hk
    simp only [List.find?_cons, beq_self_eq_true]
    simp
  · have hne : ((k0, v).1 == k) = false := by
      simp only [beq_eq_false_iff_ne, ne_eq]
      exact fun hh => hk hh.symm
    simp only [List.find?_cons, hne, find_filter_ne c k0 k hk, if_neg hk]

/-- Floor division of an integer by 50 is the floor of division by 2 then 25
over ℚ: the source's `(x1+x2)//50` is the box-center coordinate quantized with
bucket size 25. -/
theorem fdiv_fifty_eq_floor (a : ℤ) : a.fdiv 50 = ⌊(a : ℚ) / 2 / 25⌋ := by
  have h1 : ((a : ℚ) / 2 / 25) = (a : ℚ) / ((50 : ℕ) : ℚ) := by push_cast; ring
  rw [h1, Rat.floor_intCast_div_natCast, Int.fdiv_eq_ediv a (by norm_num)]
  norm_num

/-- The spec's cache key evaluates to integer floor division of the coordinate
sums by 100. -/
theorem spec_cache_key_eval (x1 y1 x2 y2 : Int) :
    spec_cache_key x1 y1 x2 y2 = ((x1 + x2) / 100, (y1 + y2) / 100) := by
  unfold spec_cache_key
  have hx : ((x1 + x2 : ℤ) : ℚ) / 2 / 50 = ((x1 + x2 : ℤ) : ℚ) / ((100 : ℕ) : ℚ) := by
    push_cast; ring
  have hy : ((y1 + y2 : ℤ) : ℚ) / 2 / 50 = ((y1 + y2 : ℤ) : ℚ) / ((100 : ℕ) : ℚ) := by
    push_cast; ring
  rw [hx, hy, Rat.floor_intCast_div_natCast, Rat.floor_intCast_div_natCast]
  norm_num

/-- With an empty gallery the face-recognition branch of the box loop is dead
and the cache (starting empty) is never consulted nor written: every person box
gets the `"SCANNING..."` sentinel. -/
theorem detectBoxes_no_gallery (rf d : Bool) (o : RawBox → IdRes)
    (boxes : List RawBox) :
    detectBoxes rf d false o boxes []
      = ((boxes.filter (fun b => b.cls == PERSON_CLASS_ID)).map
          (fun b => ⟨b.x1, b.y1, b.x2, b.y2, b.conf, "SCANNING...", 0, false⟩), []) := by
  induction boxes with
  | nil => rfl
  | cons b rest ih =>
    unfold detectBoxes
    by_cases hb : b.cls = PERSON_CLASS_ID
    · simp [hb, cacheLookup, ih, List.filter_cons]
    · simp [hb, ih, List.filter_cons]

/-! ### Claim C1 -/

/-- Concrete inputs for a ten-frame run: frame 5 detects one person, frame 10's
detector call raises. -/
def c1inputs : List GenInput :=
  [⟨true, .ok [], true, 0⟩, ⟨true, .ok [], true, 1⟩, ⟨true, .ok [], true, 2⟩,
   ⟨true, .ok [], true, 3⟩, ⟨true, .ok [personBox], true, 4⟩,
   ⟨true, .ok [], true, 5⟩, ⟨true, .ok [], true, 6⟩, ⟨true, .ok [], true, 7⟩,
   ⟨true, .ok [], true, 8⟩, ⟨true, .error (), true, 9⟩]

/-- C1 is false on the code: when the detector raises on frame 10 of a
concrete run, the exception escapes the loop (the stream stops after 9 frames
instead of continuing), and the detection set and `person_detected` keep their
values from frame 5 instead of becoming empty/false. -/
theorem claim_C1_counterexample :
    (generateLoop false oracle0 c1inputs (initState []) 0).raised = true
    ∧ (generateLoop false oracle0 c1inputs (initState []) 0).framesYielded = 9
    ∧ (generateLoop false oracle0 c1inputs (initState []) 0).s.person_detected = true
    ∧ (generateLoop false oracle0 c1inputs (initState []) 0).s.last_detections ≠ [] := by
  decide

/-- C1 (amended): if the Detector Adapter fails during an inference cycle, the
exception propagates: `process_frame` raises with the detection set and
`person_present` left unchanged (not cleared), and the `generate_frames` loop
terminates at that frame — yielding no further frames — with the camera
released by the `finally` block. -/
theorem claim_C1 (d : Bool) (o : RawBox → IdRes) (csv : Bool) (ts : Nat)
    (s : EngineState) (h : (s.frame_count + 1) % SKIP_FRAMES = 0) :
    (process_frame d o (.error ()) csv ts s).raised = true
    ∧ (process_frame d o (.error ()) csv ts s).s.last_detections = s.last_detections
    ∧ (process_frame d o (.error ()) csv ts s).s.person_detected = s.person_detected
    ∧ ∀ (rest : List GenInput) (n : Nat),
        generateLoop d o (⟨true, .error (), csv, ts⟩ :: rest) s n
          = ⟨n, { s with frame_count := s.frame_count + 1 }, true, true⟩ := by
  have key := process_frame_detector_raises d o csv ts s h
  refine ⟨by rw [key], by rw [key], by rw [key], fun rest n => ?_⟩
  unfold generateLoop
  simp [key]

/-- Witness for C1 at a concrete state on its fifth frame. -/
theorem claim_C1_witness :
    (process_frame false oracle0 (.error ()) true 0
        ({ initState [] with frame_count := 4 })).raised = true
    ∧ generateLoop false oracle0 [⟨true, .error (), true, 0⟩]
        ({ initState [] with frame_count := 4 }) 0
        = ⟨0, { initState [] with frame_count := 5 }, true, true⟩ := by
  have h := claim_C1 false oracle0 true 0 ({ initState [] with frame_count := 4 }) (by decide)
  exact ⟨h.1, by have h4 := h.2.2.2 [] 0; simpa using h4⟩

/-! ### Claim C3 -/

/-- C3 is false on the code: on a concrete inference cycle whose CSV append
fails, the exception propagates out of `process_frame` (`raised = true`) and
the event is not retained in the in-memory log. -/
theorem claim_C3_counterexample :
    (process_frame false oracle0 (.ok [personBox]) false 0
        ({ initState [] with frame_count := 4 })).raised = true
    ∧ (process_frame false oracle0 (.ok [personBox]) false 0
        ({ initState [] with frame_count := 4 })).s.detection_logs = [] := by
  decide

/-- C3 (amended): `_log_detection` writes the CSV row before touching the
in-memory tail and has no exception handler, so a failing durable write
propagates to the caller and leaves the in-memory log unchanged; only a
successful durable write appends the event to the in-memory tail. -/
theorem claim_C3 (ts num k : Nat) (names : List String) (s : EngineState) :
    log_detection false ts num k names s = (s, false)
    ∧ (log_detection true ts num k names s).1.detection_logs
        = truncateLog (s.detection_logs ++ [⟨ts, num, k, names⟩]) := by
  exact ⟨rfl, rfl⟩

/-! ### Claim C4 -/

/-- C4 is false on the code: for the box `(0, 0, 60, 60)` the code's cache key
`((x1+x2)//50, (y1+y2)//50)` is `(1, 1)`, while the spec's
`(floor(cx/50), floor(cy/50))` with center `(30, 30)` is `(0, 0)`. -/
theorem claim_C4_counterexample :
    cache_key 0 0 60 60 = (1, 1)
    ∧ spec_cache_key 0 0 60 60 = (0, 0)
    ∧ cache_key 0 0 60 60 ≠ spec_cache_key 0 0 60 60 := by
  have h2 : spec_cache_key 0 0 60 60 = (0, 0) := by
    rw [spec_cache_key_eval]
    decide
  exact ⟨by decide, h2, by rw [h2]; decide⟩

/-- C4 (amended): the cache key is `((x1+x2)//50, (y1+y2)//50)` — the box
center quantized with effective bucket size 25 (`(floor(cx/25), floor(cy/25))`),
not the spec's bucket size 50 — and the cache behaves as a map under that key:
storing a box's identity result makes it readable under exactly the same
quantized key, leaving all other buckets unchanged. -/
theorem claim_C4 (x1 y1 x2 y2 : Int) (c : Cache) (v : IdRes) (k : Int × Int) :
    cache_key x1 y1 x2 y2
      = (⌊((x1 + x2 : ℤ) : ℚ) / 2 / 25⌋, ⌊((y1 + y2 : ℤ) : ℚ) / 2 / 25⌋)
    ∧ cacheLookup (cacheStore c (cache_key x1 y1 x2 y2) v) k
        = if k = cache_key x1 y1 x2 y2 then some v else cacheLookup c k := by
  exact ⟨by rw [cache_key, fdiv_fifty_eq_floor, fdiv_fifty_eq_floor],
    cacheLookup_store c _ k v⟩

/-! ### Claim C5 -/

/-- C5 is a code bug: `VisionEngine` defines no `reload_faces` method, so the
gallery-management endpoints' `vision_engine.reload_faces()` call raises
`AttributeError`; both handlers turn it into HTTP 500 and the in-memory gallery
is never reloaded, even though the file was already saved (upload) or deleted
(delete) on disk. -/
theorem claim_C5_bug :
    visionEngineMethods.contains "reload_faces" = false
    ∧ upload_face true [("Alice", "known_faces/alice.jpg")]
        [("Alice", "known_faces/alice.jpg"), ("Bob", "known_faces/bob.jpg")]
        = ⟨.httpError 500, [("Alice", "known_faces/alice.jpg")], true⟩
    ∧ delete_face "Alice" true [("Alice", "known_faces/alice.jpg")] []
        = ⟨.httpError 500, [("Alice", "known_faces/alice.jpg")], true⟩ := by
  decide

/-! ### Claim C6 -/

/-- C6 is false on the code: with an empty gallery (or a no-match non-empty
gallery) `identify_face` returns exactly `("UNKNOWN", 0.0, False)` — the
empty-gallery return is indistinguishable from "resolved as unknown". -/
theorem claim_C6_counterexample :
    identify_face true (fun _ => .err) [] = ("UNKNOWN", 0, false)
    ∧ identify_face true (fun _ => .result false 0) [("Alice", "known_faces/alice.jpg")]
        = ("UNKNOWN", 0, false) := by
  decide

/-- C6 (amended): with an empty gallery or DeepFace unavailable,
`identify_face` returns exactly `("UNKNOWN", 0.0, False)`, the same value as a
resolved-as-unknown result (no distinguishable sentinel); however,
`_run_detection` never invokes the resolver when the gallery is empty, so from
a fresh (empty-cache) state every produced Detection carries the
`"SCANNING..."` sentinel — never `"UNKNOWN"` — and the cache stays empty. -/
theorem claim_C6 (d : Bool) (verify : String → VerifyOutcome)
    (o : RawBox → IdRes) (boxes : List RawBox) (s : EngineState)
    (hg : s.known_faces = []) (hc : s.identity_cache = []) :
    identify_face d verify [] = ("UNKNOWN", 0, false)
    ∧ (run_detection d o (.ok boxes) s).s.identity_cache = []
    ∧ ∀ det ∈ (run_detection d o (.ok boxes) s).out.getD [],
        det.identity = "SCANNING..." ∧ det.is_known = false := by
  refine ⟨rfl, ?_, ?_⟩ <;>
    simp [run_detection, hg, hc, detectBoxes_no_gallery]
  intro det b hb hcls hdet
  simp [← hdet]

/-- Witness for C6: a fresh empty-gallery engine processing one person box. -/
theorem claim_C6_witness :
    identify_face false (fun _ => .err) [] = ("UNKNOWN", 0, false)
    ∧ (run_detection false oracle0 (.ok [personBox]) (initState [])).s.identity_cache = []
    ∧ ((⟨10, 10, 60, 60, 1, "SCANNING...", 0, false⟩ : Detection).identity = "SCANNING..."
        ∧ (⟨10, 10, 60, 60, 1, "SCANNING...", 0, false⟩ : Detection).is_known = false) := by
  have h := claim_C6 false (fun _ => .err) oracle0 [personBox] (initState []) rfl rfl
  exact ⟨h.1, h.2.1, h.2.2 ⟨10, 10, 60, 60, 1, "SCANNING...", 0, false⟩
    (List.mem_singleton_self _)⟩

end GodsEye

namespace GodsEye

/-! ### Claim C7 -/

/-- C7 is false on the code: a concrete inference cycle that finds zero
persons (`if self.last_detections:` is falsy) appends no Detection Event at
all — neither to durable storage nor to the in-memory tail. -/
theorem claim_C7_counterexample :
    (process_frame false oracle0 (.ok []) true 0
        ({ initState [] with frame_count := 4 })).ranDetector = true
    ∧ (process_frame false oracle0 (.ok []) true 0
        ({ initState [] with frame_count := 4 })).s.detection_logs = [] := by
  decide

/-- C7 (amended): an inference cycle creates exactly one Detection Event only
when it found at least one person; a cycle that found zero persons appends
nothing.  On a person-finding cycle with a working CSV the appended event
carries the cycle's person count, identified count and known-name list, and it
goes to the in-memory tail (truncated to the last 1000). -/
theorem claim_C7 (d : Bool) (o : RawBox → IdRes) (bs : List RawBox) (ts : Nat)
    (s : EngineState) (hrun : (s.frame_count + 1) % SKIP_FRAMES = 0)
    (dets : List Detection) (s1 : EngineState)
    (hdet : run_detection d o (.ok bs) { s with frame_count := s.frame_count + 1 }
      = ⟨some dets, s1⟩) :
    (dets = [] → (process_frame d o (.ok bs) true ts s).s.detection_logs = s.detection_logs)
    ∧ (dets ≠ [] → (process_frame d o (.ok bs) true ts s).s.detection_logs
        = truncateLog (s.detection_logs ++
            [⟨ts, dets.length,
              ((dets.filter (fun dd => dd.is_known)).map (fun dd => dd.identity)).length,
              (dets.filter (fun dd => dd.is_known)).map (fun dd => dd.identity)⟩])) := by
  have hb : ((s.frame_count + 1) % SKIP_FRAMES == 0) = true := by simpa using hrun
  have hlogs : s1.detection_logs = s.detection_logs := by
    have hp := (run_detection_preserves d o (.ok bs)
      { s with frame_count := s.frame_count + 1 }).2.1
    rw [hdet] at hp
    simpa using hp
  constructor
  · intro hempty
    simp [process_frame, hb, hdet, hempty, hlogs]
  · intro hne
    have hemp : dets.isEmpty = false := by
      simpa [List.isEmpty_iff] using hne
    simp [process_frame, hb, hdet, hemp, log_detection, hlogs]

/-- Witness for C7: the concrete one-person cycle of frame 5 appends exactly
its event to the empty in-memory log. -/
theorem claim_C7_witness :
    (process_frame false oracle0 (.ok [personBox]) true 0
        ({ initState [] with frame_count := 4 })).s.detection_logs = [⟨0, 1, 0, []⟩] := by
  have h := (claim_C7 false oracle0 [personBox] 0 ({ initState [] with frame_count := 4 })
      (by decide)
      [⟨10, 10, 60, 60, 1, "SCANNING...", 0, false⟩]
      { initState [] with frame_count := 5, face_frame_count := 1 }
      (by decide)).2 (by decide)
  rw [h]
  decide

/-! ### Claim C9 -/

/-- C9 is false on the code: `get_logs` with `limit = 0` evaluates
`detection_logs[-0:]`, i.e. the whole list — it returns one stored event, more
than the requested limit of zero. -/
theorem claim_C9_counterexample :
    get_logs { initState [] with detection_logs := [⟨0, 1, 0, []⟩] } 0 = [⟨0, 1, 0, []⟩]
    ∧ ¬ ((get_logs { initState [] with detection_logs := [⟨0, 1, 0, []⟩] } 0).length ≤ 0) := by
  decide

/-- C9 (amended): for every limit ≥ 1 (the claim fails at limit 0, where the
slice `[-0:]` returns the whole log), `get_logs` returns exactly the suffix of
the last `min(limit, stored)` appended events, in append (chronological)
order. -/
theorem claim_C9 (s : EngineState) (limit : Int) (h : 1 ≤ limit) :
    get_logs s limit = s.detection_logs.drop (s.detection_logs.length - limit.toNat)
    ∧ (get_logs s limit).length = min limit.toNat s.detection_logs.length := by
  have hkey : get_logs s limit
      = s.detection_logs.drop (s.detection_logs.length - limit.toNat) := by
    simp only [get_logs, pySliceFrom]
    rw [if_pos (show -limit < 0 by omega)]
    congr 1
    omega
  refine ⟨hkey, ?_⟩
  rw [hkey, List.length_drop]
  omega

/-- Witness for C9 at limit 1 on a one-event log. -/
theorem claim_C9_witness :
    get_logs { initState [] with detection_logs := [⟨0, 1, 0, []⟩] } 1 = [⟨0, 1, 0, []⟩] := by
  have h := (claim_C9 { initState [] with detection_logs := [⟨0, 1, 0, []⟩] } 1 (by decide)).1
  rw [h]
  decide

end GodsEye

namespace GodsEye

/-! ### Claim C2 -/

/-- `runOk` over an appended frame list is sequential composition. -/
theorem runOk_append (d : Bool) (o : RawBox → IdRes) (l1 l2 : List (List RawBox))
    (s : EngineState) :
    runOk d o (l1 ++ l2) s = runOk d o l2 (runOk d o l1 s) := by
  simp [runOk, List.foldl_append]

/-- After processing `frames`, the frame counter has advanced by their number. -/
theorem runOk_frame_count (d : Bool) (o : RawBox → IdRes)
    (frames : List (List RawBox)) (s : EngineState) :
    (runOk d o frames s).frame_count = s.frame_count + frames.length := by
  induction frames generalizing s with
  | nil => simp [runOk]
  | cons bs rest ih =>
    have hstep : runOk d o (bs :: rest) s
        = runOk d o rest ((process_frame d o (.ok bs) true 0 s).s) := rfl
    rw [hstep, ih, process_frame_frame_count]
    simp [List.length_cons]
    omega

/-- Unrolling one more processed frame at the end of a `take`. -/
theorem runOk_take_succ (d : Bool) (o : RawBox → IdRes) (frames : List (List RawBox))
    (i : Nat) (s : EngineState) (bs : List RawBox) (hbs : frames[i]? = some bs) :
    runOk d o (frames.take (i + 1)) s
      = (process_frame d o (.ok bs) true 0 (runOk d o (frames.take i) s)).s := by
  rw [List.take_succ, hbs, runOk_append]
  rfl

/-- Between run indices the exposed detection set equals the one from the most
recent frame index divisible by `SKIP_FRAMES` (the initial empty set before the
first run). -/
theorem runOk_last_detections_run_index (d : Bool) (o : RawBox → IdRes)
    (frames : List (List RawBox)) (g : List (String × String)) :
    ∀ i, i ≤ frames.length →
      (runOk d o (frames.take i) (initState g)).last_detections
        = (runOk d o (frames.take (SKIP_FRAMES * (i / SKIP_FRAMES)))
            (initState g)).last_detections := by
  intro i
  induction i with
  | zero => intro _; rfl
  | succ n ih =>
    intro hle
    by_cases hmod : (n + 1) % SKIP_FRAMES = 0
    · have heq : SKIP_FRAMES * ((n + 1) / SKIP_FRAMES) = n + 1 := by
        simp only [SKIP_FRAMES] at hmod ⊢
        omega
      rw [heq]
    · have hn : n < frames.length := by omega
      obtain ⟨bs, hbs⟩ : ∃ bs, frames[n]? = some bs :=
        ⟨frames[n], by simp [List.getElem?_eq_getElem hn]⟩
      rw [runOk_take_succ d o frames n (initState g) bs hbs]
      have hfc : (runOk d o (frames.take n) (initState g)).frame_count = n := by
        rw [runOk_frame_count]
        simp [initState, List.length_take]
        omega
      rw [process_frame_skip d o (.ok bs) true 0 _ (by rw [hfc]; exact hmod)]
      have hdiv : (n + 1) / SKIP_FRAMES = n / SKIP_FRAMES := by
        simp only [SKIP_FRAMES] at hmod ⊢
        omega
      rw [hdiv]
      exact ih (by omega)

/-- C2: counting processed frames from 1, full detection inference runs on
frame `i` iff `i mod 5 == 0`; on every other frame the exposed detection set is
identical to the one produced at the most recent frame index divisible by 5
(the initial empty set if no run happened yet). -/
theorem claim_C2 (d : Bool) (o : RawBox → IdRes) (frames : List (List RawBox))
    (g : List (String × String)) (i : Nat) (h1 : 1 ≤ i) (hi : i ≤ frames.length)
    (bs : List RawBox) (hbs : frames[i - 1]? = some bs) :
    ((process_frame d o (.ok bs) true 0
        (runOk d o (frames.take (i - 1)) (initState g))).ranDetector = true
      ↔ i % SKIP_FRAMES = 0)
    ∧ (runOk d o (frames.take i) (initState g)).last_detections
        = (runOk d o (frames.take (SKIP_FRAMES * (i / SKIP_FRAMES)))
            (initState g)).last_detections := by
  constructor
  · rw [process_frame_ranDetector]
    have hfc : (runOk d o (frames.take (i - 1)) (initState g)).frame_count = i - 1 := by
      rw [runOk_frame_count]
      simp [initState, List.length_take]
      omega
    rw [hfc]
    have hsub : i - 1 + 1 = i := by omega
    rw [hsub]
    simp
  · exact runOk_last_detections_run_index d o frames g i hi

/-- Witness for C2 on a concrete five-frame trace, at frame 5. -/
theorem claim_C2_witness :
    ((process_frame false oracle0 (.ok [personBox]) true 0
        (runOk false oracle0 (([[], [], [], [], [personBox]] : List (List RawBox)).take (5 - 1))
          (initState []))).ranDetector = true
      ↔ 5 % SKIP_FRAMES = 0)
    ∧ (runOk false oracle0 (([[], [], [], [], [personBox]] : List (List RawBox)).take 5)
        (initState [])).last_detections
        = (runOk false oracle0
            (([[], [], [], [], [personBox]] : List (List RawBox)).take
              (SKIP_FRAMES * (5 / SKIP_FRAMES)))
            (initState [])).last_detections :=
  claim_C2 false oracle0 ([[], [], [], [], [personBox]] : List (List RawBox)) [] 5
    (by decide) (by decide) [personBox] (by decide)

/-! ### Claim C8 -/

/-- A gallery entry matches when its verify call returns `verified = true`. -/
def isMatch (verify : String → VerifyOutcome) (e : String × String) : Prop :=
  ∃ dd, verify e.2 = .result true dd

/-- The identify loop skips a prefix of entries that error or do not match. -/
theorem identifyLoop_append_skip (verify : String → VerifyOutcome)
    (pre rest : List (String × String)) (hpre : ∀ e ∈ pre, ¬ isMatch verify e) :
    identifyLoop verify (pre ++ rest) = identifyLoop verify rest := by
  induction pre with
  | nil => rfl
  | cons e tl ih =>
    obtain ⟨nm, pth⟩ := e
    have hnm := hpre (nm, pth) (by simp)
    have htl : ∀ e ∈ tl, ¬ isMatch verify e :=
      fun e he => hpre e (List.mem_cons_of_mem _ he)
    cases hv : verify pth with
    | err =>
      simp only [List.cons_append, identifyLoop, hv]
      exact ih htl
    | result v dd =>
      cases v with
      | false =>
        simp only [List.cons_append, identifyLoop, hv, Bool.false_eq_true, if_false]
        exact ih htl
      | true => exact absurd ⟨dd, hv⟩ hnm

/-- A gallery with no matching entry resolves to `("UNKNOWN", 0, false)`. -/
theorem identifyLoop_no_match (verify : String → VerifyOutcome)
    (g : List (String × String)) (hg : ∀ e ∈ g, ¬ isMatch verify e) :
    identifyLoop verify g = ("UNKNOWN", 0, false) := by
  have h := identifyLoop_append_skip verify g [] hg
  simpa [identifyLoop] using h

/-- C8: with DeepFace available and a non-empty gallery, `identify_face` tries
entries in gallery order, treats per-entry verification errors as non-matches
and keeps iterating, stops at the first entry with `verified = true` returning
`(name, 1 - distance, true)`, and returns `("UNKNOWN", 0.0, false)` when no
entry matches. -/
theorem claim_C8 :
    (∀ (verify : String → VerifyOutcome) (pre : List (String × String))
        (name path : String) (dist : ℚ) (post : List (String × String)),
        (∀ e ∈ pre, ¬ isMatch verify e) → verify path = .result true dist →
        identify_face true verify (pre ++ (name, path) :: post) = (name, 1 - dist, true))
    ∧ (∀ (verify : String → VerifyOutcome) (g : List (String × String)),
        g ≠ [] → (∀ e ∈ g, ¬ isMatch verify e) →
        identify_face true verify g = ("UNKNOWN", 0, false)) := by
  constructor
  · intro verify pre name path dist post hpre hv
    have hne : (pre ++ (name, path) :: post).isEmpty = false := by
      cases pre <;> rfl
    simp only [identify_face, hne, Bool.not_true, Bool.or_false, Bool.false_eq_true, if_false]
    rw [identifyLoop_append_skip verify pre _ hpre]
    simp [identifyLoop, hv]
  · intro verify g hg hnm
    have hne : g.isEmpty = false := by
      cases g with
      | nil => exact absurd rfl hg
      | cons a t => rfl
    simp only [identify_face, hne, Bool.not_true, Bool.or_false, Bool.false_eq_true, if_false]
    exact identifyLoop_no_match verify g hnm

/-- Witness for C8: the spec's "Alice" scenario — a single-entry gallery whose
verify call reports `verified = true` with distance `1/5` yields identity
"Alice", confidence `4/5`, `is_known = true`. -/
theorem claim_C8_witness :
    identify_face true (fun _ => .result true (1/5)) [("Alice", "alice.png")]
      = ("Alice", 4/5, true) := by
  have h := claim_C8.1 (fun _ => .result true (1/5)) [] "Alice" "alice.png" (1/5) []
      (by intro e he; cases he) rfl
  simp only [List.nil_append] at h
  rw [h]
  norm_num [Prod.ext_iff]

/-! ### Claim C10 -/

/-- C10: the consistency invariant — `person_detected` iff the current
detection set is non-empty, and `identified_count` counts its `is_known`
members — holds after `__init__` and is preserved by every `process_frame`
call (inference, skipped, and raising alike), and a `get_status` snapshot of
an invariant-satisfying state reports flags and counts consistent with that
single detection set. -/
theorem claim_C10 :
    (∀ g, EngineInv (initState g))
    ∧ (∀ (d : Bool) (o : RawBox → IdRes) (x : Except Unit (List RawBox)) (csv : Bool)
        (ts : Nat) (s : EngineState), EngineInv s → EngineInv (process_frame d o x csv ts s).s)
    ∧ (∀ (da : Bool) (s : EngineState), EngineInv s →
        (((get_status da s).person_detected = true ↔ 0 < (get_status da s).detections_count)
        ∧ (get_status da s).identified_count
            = (s.last_detections.filter (fun dd => dd.is_known)).length)) := by
  refine ⟨?_, ?_, ?_⟩
  · intro g
    exact ⟨by simp [initState], by simp [initState]⟩
  · intro d o x csv ts s hs
    simp only [process_frame]
    split
    · split
      case _ s1 heq =>
        have hp := run_detection_preserves d o x { s with frame_count := s.frame_count + 1 }
        rw [heq] at hp
        dsimp only at hp
        exact ⟨by rw [hp.2.2.1, hp.1]; exact hs.1, by rw [hp.2.2.2.1, hp.1]; exact hs.2⟩
      case _ dets s1 heq =>
        split
        case _ hemp =>
          have hnil : dets = [] := by simpa [List.isEmpty_iff] using hemp
          subst hnil
          exact ⟨by simp, by simp⟩
        case _ hemp =>
          have hne : dets ≠ [] := by simpa [List.isEmpty_iff] using hemp
          simp only [log_detection]
          split
          · exact ⟨by simpa using hne, by simp⟩
          · exact ⟨by simpa using hne, by simp⟩
    · exact hs
  · intro da s hs
    refine ⟨?_, hs.2⟩
    rw [show (get_status da s).person_detected = s.person_detected from rfl]
    rw [show (get_status da s).detections_count = s.last_detections.length from rfl]
    rw [hs.1]
    simp [List.length_pos]

/-- Witness for C10: the invariant survives a concrete one-person inference
frame from the initial state. -/
theorem claim_C10_witness :
    EngineInv (process_frame false oracle0 (.ok [personBox]) true 0 (initState [])).s :=
  claim_C10.2.1 false oracle0 (.ok [personBox]) true 0 (initState []) (by decide)

end GodsEye
